import Mathlib

/-!
Verification of the Trinetra AI Web Guardian background coordinator
(`src/background.js`) against its design specification.

The coordinator's state is a per-tab map of verdict records
(`tabAnalysisResults`), a session-scoped set of user-approved URLs
(`sessionProceededUrls`), and a static whitelist of trusted domain
suffixes.  The operations modelled here are the analysis pipeline
`analyzeWithAI`, the record writer `updateTabStatus`, and the event
handlers for `PAGE_DATA`, `GET_TAB_STATUS`, `PROCEED_ANYWAY`,
`chrome.tabs.onUpdated` and `chrome.tabs.onRemoved`.

JavaScript idioms are embedded explicitly: the per-tab object maps a key
to absent, `null`, or a record; `&&`-truthiness of strings is emptiness;
the classifier network call is a parameter enumerating the outcomes the
code distinguishes.  Machine-level aspects that the claims do not touch
(UTF-16 string length, numeric confidence formatting) are modelled by
codepoint length and a pre-rendered confidence string respectively.
-/

namespace Trinetra

/-! ### JavaScript string primitives

The JS string methods the coordinator uses, modelled over the character
list of a Lean `String` so that every definition evaluates by kernel
reduction.  JS strings are UTF-16 code-unit sequences; on the data the
coordinator handles (ASCII statuses, URLs, explanations) codepoint
sequences agree with code-unit sequences. -/

/-- JS `String.prototype.startsWith`. -/
def jsStartsWith (s pre : String) : Bool := pre.data.isPrefixOf s.data

/-- JS `String.prototype.endsWith` — a plain character-suffix test. -/
def jsEndsWith (s suf : String) : Bool := suf.data.isSuffixOf s.data

/-- JS `String.prototype.substring(n)` / dropping a prefix. -/
def strDrop (s : String) (n : Nat) : String := ⟨s.data.drop n⟩

/-- JS `String.prototype.substring(0, n)`. -/
def strTake (s : String) (n : Nat) : String := ⟨s.data.take n⟩

/-- JS `String.prototype.length`. -/
def strLen (s : String) : Nat := s.data.length

/-- ASCII uppercasing of one character (JS `toUpperCase` restricted to
the ASCII range, which covers the classifier statuses involved). -/
def charUpper (c : Char) : Char :=
  if 97 ≤ c.toNat && c.toNat ≤ 122 then Char.ofNat (c.toNat - 32) else c

/-- ASCII lowercasing of one character (URL hostnames are lowercased by
the platform URL parser). -/
def charLower (c : Char) : Char :=
  if 65 ≤ c.toNat && c.toNat ≤ 90 then Char.ofNat (c.toNat + 32) else c

/-- JS `String.prototype.toUpperCase` (ASCII range). -/
def strUpper (s : String) : String := ⟨s.data.map charUpper⟩

/-- ASCII lowercasing of a string. -/
def strLower (s : String) : String := ⟨s.data.map charLower⟩

/-- The JS `trim` whitespace class (WhiteSpace ∪ LineTerminator): tab,
LF, VT, FF, CR, space, NBSP, LS, PS, BOM. -/
def isJsWhitespace (c : Char) : Bool :=
  c.toNat = 9 || c.toNat = 10 || c.toNat = 11 || c.toNat = 12 || c.toNat = 13 ||
  c.toNat = 32 || c.toNat = 160 || c.toNat = 8232 || c.toNat = 8233 || c.toNat = 65279

/-- JS `String.prototype.trim`. -/
def strTrim (s : String) : String :=
  ⟨((s.data.dropWhile isJsWhitespace).reverse.dropWhile isJsWhitespace).reverse⟩

/-- `WHITELISTED_DOMAINS` from background.js lines 20-25. -/
def WHITELISTED_DOMAINS : List String :=
  ["google.com", "youtube.com", "gmail.com",
   "github.com", "stackoverflow.com",
   "developer.chrome.com", "developer.mozilla.org",
   "wikipedia.org", "medium.com"]

/-- `ANALYSIS_CACHE_DURATION_MS = 3 * 60 * 1000` (line 17): the cache TTL. -/
def ANALYSIS_CACHE_DURATION_MS : Nat := 3 * 60 * 1000

/-- The value `tabAnalysisResults[tabId]` is set to on every
`updateTabStatus` call (lines 283-288): url, status, explanation,
timestamp.  Statuses are the literal strings the code writes. -/
structure VerdictRecord where
  url : String
  status : String
  explanation : String
  timestamp : Nat
deriving Repr, DecidableEq

/-- A JavaScript object entry: the key can be absent, hold `null`
(written by the navigation listener, line 401), or hold a record. -/
inductive EntryVal where
  | absent
  | nullEntry
  | record (r : VerdictRecord)
deriving Repr, DecidableEq

/-- `tabAnalysisResults`: the per-tab record store (line 28). -/
def Store : Type := Nat → EntryVal

/-- Pointwise store update (assignment / `delete` / `= null` on the object). -/
def storeSet (store : Store) (tabId : Nat) (v : EntryVal) : Store :=
  fun t => if t = tabId then v else store t

/-- Model of the platform URL parser `new URL(url).hostname`, restricted
to the http/https URLs the extension operates on (content scripts only
run on http/https pages): the authority part up to `/`, `?` or `#`, with
userinfo and port stripped and ASCII-lowercased; `none` models the
constructor throwing on other inputs. -/
def hostname (url : String) : Option String :=
  let afterScheme : Option (List Char) :=
    if jsStartsWith url "https://" then some (url.data.drop 8)
    else if jsStartsWith url "http://" then some (url.data.drop 7)
    else none
  match afterScheme with
  | none => none
  | some rest =>
    let authority := rest.takeWhile (fun c => c ≠ '/' && c ≠ '?' && c ≠ '#')
    let hostPort := (authority.reverse.takeWhile (fun c => c ≠ '@')).reverse
    let host := hostPort.takeWhile (fun c => c ≠ ':')
    if host = [] then none else some (strLower ⟨host⟩)

/-- `getDomain` (lines 37-44): hostname with one leading `www.` stripped
(`.replace(/^www\./, '')`); `null` on parse failure. -/
def getDomain (url : String) : Option String :=
  (hostname url).map (fun h => if jsStartsWith h "www." then strDrop h 4 else h)

/-- `truncateText` (lines 61-64).  JS measures UTF-16 code units; the
model measures codepoints, which agrees on the ASCII data involved. -/
def truncateText (text : String) (maxLength : Nat) : String :=
  if text = "" then ""
  else if strLen text > maxLength then (strTake text (maxLength - 3)) ++ "..." else text

/-- JS `&&`-truthiness of an optional string field: `undefined` and the
empty string are falsy, every other string is truthy. -/
def truthyStr : Option String → Bool
  | none => false
  | some s => !(s = "")

/-- The fields of the parsed AI text part that lines 241-250 read.
`confidenceText` models `confidence_score` already rendered as a percent
string (`(score * 100).toFixed(0)`), `none` when the field is absent or
falsy; `threatType` is `primary_threat_type`.  A parsed value that is
not an object behaves like all-fields-absent, since reading `.status`
on it yields `undefined`. -/
structure AiAnalysis where
  status : Option String
  explanation : Option String
  confidenceText : Option String
  threatType : Option String
deriving Repr, DecidableEq

/-- The outcomes of the classifier call that lines 191-271 distinguish:
a thrown fetch error, a non-ok HTTP response, a response body that is
not JSON, a prompt-feedback block, an envelope without a text part, and
a text part `raw` whose JSON parse either fails (`none`) or yields a
value with the fields of `parsed`. -/
inductive ClassifierResult where
  | transportError (msg : String)
  | httpError (msg : String)
  | bodyNotJson
  | blocked (reason : String)
  | noContent
  | aiText (raw : String) (parsed : Option AiAnalysis)
deriving Repr, DecidableEq

/-- The three statuses accepted at line 243. -/
def KNOWN_STATUSES : List String := ["SAFE", "SUSPICIOUS", "DANGEROUS"]

/-- `aiAnalysis.status.toUpperCase().trim()` (line 242). -/
def normalizeStatus (s : String) : String := strTrim (strUpper s)

/-- The (status, explanation) pair `updateTabStatus` is called with for
each classifier outcome, lines 205-271: every branch ends in exactly one
`updateTabStatus` call, so this is a total function — no outcome
escapes as an uncaught fault. -/
def classifyOutcome (res : ClassifierResult) : String × String :=
  match res with
  | .transportError msg =>
      ("ERROR", "Network error or issue calling Trinetra AI backend: " ++ msg)
  | .httpError msg =>
      ("ERROR", "Gemini API request failed: " ++ msg)
  | .bodyNotJson =>
      ("ERROR", "Trinetra AI response was not valid JSON.")
  | .blocked reason =>
      ("ERROR", "Trinetra AI analysis blocked by content safety filter: " ++ reason)
  | .noContent =>
      ("ERROR", "Could not extract content from Trinetra AI response (unexpected structure).")
  | .aiText raw none =>
      ("ERROR", "Trinetra AI response content format error. Details: " ++ truncateText raw 100)
  | .aiText _ (some a) =>
      if truthyStr a.status && truthyStr a.explanation then
        let st := a.status.getD ""
        let ex := a.explanation.getD ""
        let ns := normalizeStatus st
        if KNOWN_STATUSES.contains ns then
          let ex1 := match a.confidenceText with
            | some c => ex ++ " (Confidence: " ++ c ++ "%)"
            | none => ex
          let ex2 := match a.threatType with
            | some t => if !(t = "") && !(t = "N/A") then ex1 ++ " [Threat: " ++ t ++ "]" else ex1
            | none => ex1
          (ns, ex2)
        else
          ("SUSPICIOUS",
           "Trinetra AI provided an unknown status: " ++ st ++ ". Explanation: " ++ ex)
      else
        ("ERROR", "Trinetra AI response structure incomplete.")

/-- Result of one `analyzeWithAI` run: the record it hands to
`updateTabStatus`, and whether the classifier network call was made. -/
structure AnalyzeResult where
  record : VerdictRecord
  classifierCalled : Bool
deriving Repr, DecidableEq

/-- `analyzeWithAI` (lines 110-272) as a function of the stored API key,
the session override set, the page URL, the (hypothetical) classifier
outcome and the current time.  Order of checks as in the source:
missing key (112), whitelist suffix match (118-123), session override
(125-129), then the classifier call. -/
def analyzeWithAI (apiKey : Option String) (overrides : List String)
    (url : String) (res : ClassifierResult) (now : Nat) : AnalyzeResult :=
  match apiKey with
  | none =>
      ⟨⟨url, "ERROR", "Gemini API key is missing. Please set it in the Trinetra popup.", now⟩,
       false⟩
  | some _ =>
      let whitelisted :=
        match getDomain url with
        | some d => WHITELISTED_DOMAINS.any (fun w => jsEndsWith d w)
        | none => false
      if whitelisted then
        ⟨⟨url, "SAFE", "This domain is on Trinetra\x27s trusted whitelist.", now⟩, false⟩
      else if overrides.contains url then
        ⟨⟨url, "SAFE", "You chose to proceed to this page earlier in this session.", now⟩, false⟩
      else
        let (st, ex) := classifyOutcome res
        ⟨⟨url, st, ex, now⟩, true⟩

/-- `updateTabStatus` (lines 282-295): writes the record for the tab
unconditionally; the UI push and notifications are side channels that do
not touch the store. -/
def updateTabStatus (store : Store) (tabId : Nat) (url status explanation : String)
    (now : Nat) : Store :=
  storeSet store tabId (.record ⟨url, status, explanation, now⟩)

/-- Outcome of the `PAGE_DATA` message handler: the store afterwards,
whether a fresh analysis ran (as opposed to reusing the cached record or
dropping the message), and whether the classifier network call was made. -/
structure PageDataOutcome where
  store : Store
  analyzed : Bool
  classifierCalled : Bool

/-- The `PAGE_DATA` branch of the message listener (lines 355-370):
guarded by `if (tabId)` (0 is JS-falsy), it reuses the existing record
when its url equals the incoming one and the url was session-approved or
the record is younger than the TTL; otherwise it runs `analyzeWithAI`.
The incoming `url` is `request.data.url`; `now` is `Date.now()`. -/
def handlePageData (apiKey : Option String) (overrides : List String) (store : Store)
    (tabId : Nat) (url : String) (res : ClassifierResult) (now : Nat) : PageDataOutcome :=
  if tabId = 0 then ⟨store, false, false⟩
  else
    let runAnalysis : PageDataOutcome :=
      let a := analyzeWithAI apiKey overrides url res now
      ⟨updateTabStatus store tabId a.record.url a.record.status a.record.explanation
         a.record.timestamp,
       true, a.classifierCalled⟩
    match store tabId with
    | .record existing =>
        if existing.url = url &&
            (overrides.contains url || now - existing.timestamp < ANALYSIS_CACHE_DURATION_MS) then
          ⟨store, false, false⟩
        else runAnalysis
    | _ => runAnalysis

/-- What `GET_TAB_STATUS` sends back: the tab record, or the placeholder
object `\x7b status: "PENDING", explanation: "Trinetra is analyzing or no
data yet..." \x7d`, which carries no url and no timestamp. -/
inductive StatusResponse where
  | record (r : VerdictRecord)
  | placeholder
deriving Repr, DecidableEq

/-- The `GET_TAB_STATUS` branch (lines 371-373):
`tabAnalysisResults[tabId] || placeholder` — both an absent entry and a
`null` entry are falsy, so both yield the placeholder. -/
def getStatus (store : Store) (tabId : Nat) : StatusResponse :=
  match store tabId with
  | .record r => .record r
  | _ => .placeholder

/-- Outcome of the `PROCEED_ANYWAY` handler: the `success` flag of the
response, the store and override set afterwards, and the `newStatus`
record sent back on success. -/
structure ProceedOutcome where
  success : Bool
  store : Store
  overrides : List String
  newStatus : Option VerdictRecord

/-- The `PROCEED_ANYWAY` branch (lines 381-389): requires a truthy
`request.tabId` (0 is JS-falsy) and a truthy record for the tab; then
adds the record\x27s url to `sessionProceededUrls`, overwrites the record
via `updateTabStatus` with status SAFE, and responds with the updated
record; otherwise responds `success: false` touching nothing. -/
def proceedAnyway (store : Store) (overrides : List String) (tabId : Nat)
    (now : Nat) : ProceedOutcome :=
  match tabId, store tabId with
  | 0, _ => ⟨false, store, overrides, none⟩
  | _ + 1, .record existing =>
      let url := existing.url
      let overridesNew := url :: overrides
      let newRec : VerdictRecord :=
        ⟨url, "SAFE", "You chose to proceed. Trinetra will trust this page for this session.", now⟩
      ⟨true, storeSet store tabId (.record newRec), overridesNew, some newRec⟩
  | _ + 1, _ => ⟨false, store, overrides, none⟩

/-- The `chrome.tabs.onUpdated` listener (lines 395-406): when a tab
finishes loading an http/https url and holds a record whose domain
differs from the new url\x27s domain, the entry is set to `null` (not
deleted).  `complete` is whether `changeInfo.status === "complete"`. -/
def onTabUpdated (store : Store) (tabId : Nat) (complete : Bool) (url : String) : Store :=
  if complete && (jsStartsWith url "http://" || jsStartsWith url "https://") then
    match store tabId with
    | .record r =>
        if getDomain r.url ≠ getDomain url then storeSet store tabId .nullEntry else store
    | _ => store
  else store

/-- The `chrome.tabs.onRemoved` listener (lines 409-412):
`delete tabAnalysisResults[tabId]`. -/
def onTabRemoved (store : Store) (tabId : Nat) : Store :=
  storeSet store tabId .absent

/-- The three shapes a store entry can take: absent, `null`, or a record
carrying all four fields. -/
def WellFormedEntry (v : EntryVal) : Prop :=
  v = .absent ∨ v = .nullEntry ∨ ∃ r, v = .record r

/-! ### Theorems -/

/-- Every `EntryVal` has one of the three well-formed shapes. -/
theorem entryVal_wellFormed (v : EntryVal) : WellFormedEntry v := by
  cases v with
  | absent => exact Or.inl rfl
  | nullEntry => exact Or.inr (Or.inl rfl)
  | record r => exact Or.inr (Or.inr ⟨r, rfl⟩)

/-- C7: whenever the stored API credential is absent, `analyzeWithAI`
records a VerdictRecord with status ERROR whose explanation mentions the
missing credential ("Gemini API key is missing. ..."), and the
classifier is never called — for every override set, URL, hypothetical
classifier outcome and time. -/
theorem missing_credential_yields_error (overrides : List String) (url : String)
    (res : ClassifierResult) (now : Nat) :
    analyzeWithAI none overrides url res now =
      ⟨⟨url, "ERROR", "Gemini API key is missing. Please set it in the Trinetra popup.", now⟩,
       false⟩ := rfl

/-- C1, counterexample: the claim asserts the whitelist short-circuit
fires regardless of whether the API credential is present, but the code
checks the credential first (line 112 before line 118).  On the
whitelisted URL https://www.google.com/ with no stored key,
`analyzeWithAI` records ERROR, not SAFE. -/
theorem whitelist_without_credential_counterexample :
    getDomain "https://www.google.com/" = some "google.com" ∧
    WHITELISTED_DOMAINS.any (fun w => jsEndsWith "google.com" w) = true ∧
    (analyzeWithAI none [] "https://www.google.com/" .bodyNotJson 0).record.status = "ERROR" ∧
    (analyzeWithAI none [] "https://www.google.com/" .bodyNotJson 0).record.status ≠ "SAFE" := by
  decide

/-- C1, amended: for every page whose URL domain suffix-matches a
whitelist entry, provided the API credential is present, `analyzeWithAI`
records SAFE with the trusted-domain explanation and never calls the
classifier — regardless of the override set, the classifier outcome and
the time. -/
theorem whitelist_with_credential_safe (key : String) (overrides : List String)
    (url d : String) (res : ClassifierResult) (now : Nat)
    (hd : getDomain url = some d)
    (hw : WHITELISTED_DOMAINS.any (fun w => jsEndsWith d w) = true) :
    analyzeWithAI (some key) overrides url res now =
      ⟨⟨url, "SAFE", "This domain is on Trinetra\x27s trusted whitelist.", now⟩, false⟩ := by
  simp [analyzeWithAI, hd, hw]

/-- Witness for C1 amended, at the spec scenario url https://github.com/foo. -/
theorem whitelist_with_credential_safe_witness :
    getDomain "https://github.com/foo" = some "github.com" ∧
    WHITELISTED_DOMAINS.any (fun w => jsEndsWith "github.com" w) = true ∧
    analyzeWithAI (some "k") [] "https://github.com/foo" .bodyNotJson 3 =
      ⟨⟨"https://github.com/foo", "SAFE",
        "This domain is on Trinetra\x27s trusted whitelist.", 3⟩, false⟩ :=
  ⟨by decide, by decide,
   whitelist_with_credential_safe "k" [] "https://github.com/foo" "github.com"
     .bodyNotJson 3 (by decide) (by decide)⟩

/-- C9: whitelist matching is a plain character-suffix test.  The
hostname evilgoogle.com is neither equal to nor a dot-separated
subdomain of any whitelist entry, yet the `PAGE_DATA` flow records SAFE
with the trusted-domain explanation and never calls the classifier. -/
theorem whitelist_suffix_no_label_boundary :
    getDomain "https://evilgoogle.com/login" = some "evilgoogle.com" ∧
    WHITELISTED_DOMAINS.all
      (fun w => !("evilgoogle.com" = w) && !(jsEndsWith "evilgoogle.com" ("." ++ w))) = true ∧
    (handlePageData (some "key") [] (fun _ => EntryVal.absent) 1 "https://evilgoogle.com/login"
        .bodyNotJson 0).store 1 =
      .record ⟨"https://evilgoogle.com/login", "SAFE",
        "This domain is on Trinetra\x27s trusted whitelist.", 0⟩ ∧
    (handlePageData (some "key") [] (fun _ => EntryVal.absent) 1 "https://evilgoogle.com/login"
        .bodyNotJson 0).classifierCalled = false := by
  decide

/-- C2, counterexample: `updateTabStatus` performs no check of the
tab\x27s current record URL.  With the tab holding the fresh record for
https://b.com/, applying a late classifier response for https://a.com/
overwrites the newer page\x27s record. -/
theorem stale_response_overwrite_counterexample :
    (storeSet (fun _ => EntryVal.absent) 1
        (.record ⟨"https://b.com/", "SAFE", "fresh page verdict", 100⟩)) 1 =
      .record ⟨"https://b.com/", "SAFE", "fresh page verdict", 100⟩ ∧
    ("https://a.com/" : String) ≠ "https://b.com/" ∧
    (updateTabStatus
        (storeSet (fun _ => EntryVal.absent) 1
          (.record ⟨"https://b.com/", "SAFE", "fresh page verdict", 100⟩))
        1 "https://a.com/" "DANGEROUS" "stale verdict" 150) 1 =
      .record ⟨"https://a.com/", "DANGEROUS", "stale verdict", 150⟩ := by
  decide

/-- C2, amended: `updateTabStatus` applies a classifier response
unconditionally — it overwrites the tab\x27s record with the given url,
status, explanation and timestamp whatever the current record holds, so
a late response does overwrite a newer page\x27s record. -/
theorem updateTabStatus_unconditional (store : Store) (tabId : Nat)
    (url status explanation : String) (now : Nat) :
    updateTabStatus store tabId url status explanation now tabId =
      .record ⟨url, status, explanation, now⟩ := by
  simp [updateTabStatus, storeSet]

/-- C3, counterexample: the cache condition at line 362 ORs the session
override set into the TTL test, so for a session-overridden URL the
cached record is reused even at Δ = CACHE_TTL (record timestamped 0,
call at `ANALYSIS_CACHE_DURATION_MS`): no fresh analysis and no new
classification is issued, contradicting the claim\x27s "at Δ ≥ CACHE_TTL
a new classification is issued". -/
theorem cache_ttl_override_counterexample :
    (handlePageData (some "key") ["https://a.com/x"]
        (storeSet (fun _ => EntryVal.absent) 1
          (.record ⟨"https://a.com/x", "DANGEROUS", "expl", 0⟩))
        1 "https://a.com/x" .bodyNotJson ANALYSIS_CACHE_DURATION_MS).analyzed = false ∧
    (handlePageData (some "key") ["https://a.com/x"]
        (storeSet (fun _ => EntryVal.absent) 1
          (.record ⟨"https://a.com/x", "DANGEROUS", "expl", 0⟩))
        1 "https://a.com/x" .bodyNotJson ANALYSIS_CACHE_DURATION_MS).classifierCalled = false ∧
    (handlePageData (some "key") ["https://a.com/x"]
        (storeSet (fun _ => EntryVal.absent) 1
          (.record ⟨"https://a.com/x", "DANGEROUS", "expl", 0⟩))
        1 "https://a.com/x" .bodyNotJson ANALYSIS_CACHE_DURATION_MS).store 1 =
      .record ⟨"https://a.com/x", "DANGEROUS", "expl", 0⟩ := by
  decide

/-- C3, amended: for a tab holding a record for the same URL timestamped
`t`, a repeated `PAGE_DATA` at `t + Δ` with Δ < CACHE_TTL reuses the
record (store unchanged, no analysis, no classification); at
Δ ≥ CACHE_TTL, provided the URL is not in the SessionOverrideSet, the
record is not reused and a fresh analysis runs (a session-overridden URL
is reused regardless of Δ). -/
theorem cache_ttl_behavior (apiKey : Option String) (ov : List String) (store : Store)
    (tabId : Nat) (url : String) (r : VerdictRecord) (res : ClassifierResult) (Δ : Nat)
    (htab : tabId ≠ 0) (hrec : store tabId = .record r) (hurl : r.url = url) :
    (Δ < ANALYSIS_CACHE_DURATION_MS →
      handlePageData apiKey ov store tabId url res (r.timestamp + Δ) = ⟨store, false, false⟩) ∧
    (ANALYSIS_CACHE_DURATION_MS ≤ Δ → url ∉ ov →
      (handlePageData apiKey ov store tabId url res (r.timestamp + Δ)).analyzed = true) := by
  constructor
  · intro hΔ
    simp [handlePageData, htab, hrec, hurl, Nat.add_sub_cancel_left, hΔ]
  · intro hΔ hov
    simp [handlePageData, htab, hrec, hurl, Nat.add_sub_cancel_left, hov, Nat.not_lt.mpr hΔ]

/-- Witness for C3 amended: both branches at a concrete store. -/
theorem cache_ttl_behavior_witness :
    handlePageData (some "key") []
        (storeSet (fun _ => EntryVal.absent) 1
          (.record ⟨"https://a.com/x", "DANGEROUS", "expl", 0⟩))
        1 "https://a.com/x" .bodyNotJson 1 =
      ⟨storeSet (fun _ => EntryVal.absent) 1
          (.record ⟨"https://a.com/x", "DANGEROUS", "expl", 0⟩),
       false, false⟩ ∧
    (handlePageData (some "key") []
        (storeSet (fun _ => EntryVal.absent) 1
          (.record ⟨"https://a.com/x", "DANGEROUS", "expl", 0⟩))
        1 "https://a.com/x" .bodyNotJson ANALYSIS_CACHE_DURATION_MS).analyzed = true :=
  ⟨(cache_ttl_behavior (some "key") []
      (storeSet (fun _ => EntryVal.absent) 1
        (.record ⟨"https://a.com/x", "DANGEROUS", "expl", 0⟩))
      1 "https://a.com/x" ⟨"https://a.com/x", "DANGEROUS", "expl", 0⟩ .bodyNotJson 1
      (by decide) (by decide) (by decide)).1 (by decide),
   (cache_ttl_behavior (some "key") []
      (storeSet (fun _ => EntryVal.absent) 1
        (.record ⟨"https://a.com/x", "DANGEROUS", "expl", 0⟩))
      1 "https://a.com/x" ⟨"https://a.com/x", "DANGEROUS", "expl", 0⟩ .bodyNotJson
      ANALYSIS_CACHE_DURATION_MS
      (by decide) (by decide) (by decide)).2 (by decide) (by simp)⟩

/-- C4: `PROCEED_ANYWAY` responds `success: false` leaving the store and
override set untouched when the tab holds no record (absent or `null`
entry); for a real tab id holding a record it adds the record\x27s url to
the override set, overwrites the tab\x27s record to SAFE with the
user-override explanation, and responds with the new record. -/
theorem proceedAnyway_spec (store : Store) (ov : List String) (tabId now : Nat)
    (r : VerdictRecord) :
    ((store tabId = .absent ∨ store tabId = .nullEntry) →
      proceedAnyway store ov tabId now = ⟨false, store, ov, none⟩) ∧
    (tabId ≠ 0 → store tabId = .record r →
      proceedAnyway store ov tabId now =
        ⟨true,
         storeSet store tabId (.record ⟨r.url, "SAFE",
           "You chose to proceed. Trinetra will trust this page for this session.", now⟩),
         r.url :: ov,
         some ⟨r.url, "SAFE",
           "You chose to proceed. Trinetra will trust this page for this session.", now⟩⟩) := by
  constructor
  · intro h
    cases tabId with
    | zero => rfl
    | succ n => rcases h with h | h <;> simp [proceedAnyway, h]
  · intro htab hrec
    cases tabId with
    | zero => exact absurd rfl htab
    | succ n => simp [proceedAnyway, hrec]

/-- Witness for C4: both branches at concrete stores. -/
theorem proceedAnyway_spec_witness :
    proceedAnyway (fun _ => EntryVal.absent) [] 1 7 =
      ⟨false, fun _ => EntryVal.absent, [], none⟩ ∧
    proceedAnyway
        (storeSet (fun _ => EntryVal.absent) 1 (.record ⟨"u", "DANGEROUS", "e", 0⟩)) [] 1 7 =
      ⟨true,
       storeSet (storeSet (fun _ => EntryVal.absent) 1 (.record ⟨"u", "DANGEROUS", "e", 0⟩))
         1 (.record ⟨"u", "SAFE",
           "You chose to proceed. Trinetra will trust this page for this session.", 7⟩),
       ["u"],
       some ⟨"u", "SAFE",
         "You chose to proceed. Trinetra will trust this page for this session.", 7⟩⟩ :=
  ⟨(proceedAnyway_spec (fun _ => EntryVal.absent) [] 1 7 ⟨"u", "SAFE", "e", 0⟩).1
     (Or.inl rfl),
   (proceedAnyway_spec
      (storeSet (fun _ => EntryVal.absent) 1 (.record ⟨"u", "DANGEROUS", "e", 0⟩)) [] 1 7
      ⟨"u", "DANGEROUS", "e", 0⟩).2 (by decide) (by decide)⟩

/-- C5: a classifier text part that is not parseable JSON, or whose
parsed value lacks a truthy `status` or `explanation`, always yields
status ERROR with a descriptive explanation — never SAFE; and
`classifyOutcome` being a total function, no such response crashes the
coordinator. -/
theorem invalid_response_yields_error (raw : String) (a : AiAnalysis)
    (h : truthyStr a.status = false ∨ truthyStr a.explanation = false) :
    classifyOutcome (.aiText raw none) =
      ("ERROR", "Trinetra AI response content format error. Details: " ++ truncateText raw 100) ∧
    classifyOutcome (.aiText raw (some a)) =
      ("ERROR", "Trinetra AI response structure incomplete.") ∧
    (classifyOutcome (.aiText raw none)).1 ≠ "SAFE" ∧
    (classifyOutcome (.aiText raw (some a))).1 ≠ "SAFE" := by
  have hval : classifyOutcome (.aiText raw (some a)) =
      ("ERROR", "Trinetra AI response structure incomplete.") := by
    rcases h with h | h <;> simp [classifyOutcome, h]
  have hnone : (classifyOutcome (.aiText raw none)).1 = "ERROR" := rfl
  refine ⟨rfl, hval, ?_, ?_⟩
  · rw [hnone]; decide
  · rw [hval]; decide

/-- Witness for C5 at a malformed concrete response missing `status`. -/
theorem invalid_response_yields_error_witness :
    classifyOutcome (.aiText "garbage" none) =
      ("ERROR", "Trinetra AI response content format error. Details: garbage") ∧
    classifyOutcome (.aiText "garbage" (some ⟨none, some "x", none, none⟩)) =
      ("ERROR", "Trinetra AI response structure incomplete.") ∧
    (classifyOutcome (.aiText "garbage" (some ⟨none, some "x", none, none⟩))).1 ≠ "SAFE" :=
  ⟨(invalid_response_yields_error "garbage" ⟨none, some "x", none, none⟩ (Or.inl rfl)).1,
   (invalid_response_yields_error "garbage" ⟨none, some "x", none, none⟩ (Or.inl rfl)).2.1,
   (invalid_response_yields_error "garbage" ⟨none, some "x", none, none⟩ (Or.inl rfl)).2.2.2⟩

/-- C6: when `status` and `explanation` are both truthy, the status is
normalized by uppercasing and trimming; a normalized value outside
SAFE/SUSPICIOUS/DANGEROUS yields SUSPICIOUS — not ERROR and not SAFE —
with an explanation quoting the unrecognized value, while a recognized
normalized value is recorded as the status. -/
theorem unknown_status_yields_suspicious (raw st ex : String)
    (conf threat : Option String) (hst : st ≠ "") (hex : ex ≠ "") :
    (normalizeStatus st ∉ KNOWN_STATUSES →
      classifyOutcome (.aiText raw (some ⟨some st, some ex, conf, threat⟩)) =
        ("SUSPICIOUS", "Trinetra AI provided an unknown status: " ++ st ++
          ". Explanation: " ++ ex)) ∧
    (normalizeStatus st ∈ KNOWN_STATUSES →
      (classifyOutcome (.aiText raw (some ⟨some st, some ex, conf, threat⟩))).1 =
        normalizeStatus st) := by
  constructor
  · intro hunk
    simp [classifyOutcome, truthyStr, hst, hex, hunk]
  · intro hk
    rcases conf with _ | c <;> rcases threat with _ | t <;>
      simp [classifyOutcome, truthyStr, hst, hex, hk]

/-- Witness for C6: status " weird " yields SUSPICIOUS, status
"dangerous" normalizes to DANGEROUS. -/
theorem unknown_status_yields_suspicious_witness :
    classifyOutcome (.aiText "x" (some ⟨some " weird ", some "hm", none, none⟩)) =
      ("SUSPICIOUS", "Trinetra AI provided an unknown status:  weird . Explanation: hm") ∧
    (classifyOutcome (.aiText "x"
        (some ⟨some "dangerous", some "mimics bank login", some "90", none⟩))).1 =
      normalizeStatus "dangerous" :=
  ⟨(unknown_status_yields_suspicious "x" " weird " "hm" none none
      (by decide) (by decide)).1 (by decide),
   (unknown_status_yields_suspicious "x" "dangerous" "mimics bank login" (some "90") none
      (by decide) (by decide)).2 (by decide)⟩

/-- C8: `getStatus` is a pure total read that never fails: it returns
the stored record when one exists, the PENDING placeholder when the
entry is absent or `null`, and after `onTabRemoved` on the tab it
returns the placeholder — never a stale record. -/
theorem getStatus_total_and_cleared (store : Store) (tabId : Nat) (r : VerdictRecord) :
    (store tabId = .record r → getStatus store tabId = .record r) ∧
    (store tabId = .absent ∨ store tabId = .nullEntry →
      getStatus store tabId = .placeholder) ∧
    getStatus (onTabRemoved store tabId) tabId = .placeholder := by
  refine ⟨fun h => by simp [getStatus, h], fun h => ?_, ?_⟩
  · rcases h with h | h <;> simp [getStatus, h]
  · simp [getStatus, onTabRemoved, storeSet]

/-- Witness for C8: a concrete tab record read back, then cleared. -/
theorem getStatus_total_and_cleared_witness :
    getStatus (storeSet (fun _ => EntryVal.absent) 1 (.record ⟨"u", "SAFE", "e", 0⟩)) 1 =
      .record ⟨"u", "SAFE", "e", 0⟩ ∧
    getStatus (storeSet (fun _ => EntryVal.absent) 1 (.record ⟨"u", "SAFE", "e", 0⟩)) 2 =
      .placeholder ∧
    getStatus
      (onTabRemoved (storeSet (fun _ => EntryVal.absent) 1 (.record ⟨"u", "SAFE", "e", 0⟩)) 1)
      1 = .placeholder :=
  ⟨(getStatus_total_and_cleared
      (storeSet (fun _ => EntryVal.absent) 1 (.record ⟨"u", "SAFE", "e", 0⟩)) 1
      ⟨"u", "SAFE", "e", 0⟩).1 (by decide),
   (getStatus_total_and_cleared
      (storeSet (fun _ => EntryVal.absent) 1 (.record ⟨"u", "SAFE", "e", 0⟩)) 2
      ⟨"u", "SAFE", "e", 0⟩).2.1 (Or.inl (by decide)),
   (getStatus_total_and_cleared
      (storeSet (fun _ => EntryVal.absent) 1 (.record ⟨"u", "SAFE", "e", 0⟩)) 1
      ⟨"u", "SAFE", "e", 0⟩).2.2⟩

/-- C10: every coordinator operation leaves each tab entry absent,
`null`, or a complete four-field record; `getStatus` returns the PENDING
placeholder exactly for the absent and `null` entries; and the
navigation listener invalidates a record whose domain changed by writing
`null` (not deleting), after which `getStatus` is the placeholder. -/
theorem store_entries_wellFormed (apiKey : Option String) (ov : List String)
    (store : Store) (tabId t now : Nat) (url : String) (res : ClassifierResult)
    (complete : Bool) (r : VerdictRecord) :
    WellFormedEntry ((handlePageData apiKey ov store tabId url res now).store t) ∧
    WellFormedEntry ((proceedAnyway store ov tabId now).store t) ∧
    WellFormedEntry (onTabUpdated store tabId complete url t) ∧
    WellFormedEntry (onTabRemoved store tabId t) ∧
    (getStatus store t = .placeholder ↔ (store t = .absent ∨ store t = .nullEntry)) ∧
    (store tabId = .record r → jsStartsWith url "https://" = true →
      getDomain r.url ≠ getDomain url →
      onTabUpdated store tabId true url tabId = .nullEntry ∧
      getStatus (onTabUpdated store tabId true url) tabId = .placeholder) := by
  refine ⟨entryVal_wellFormed _, entryVal_wellFormed _, entryVal_wellFormed _,
    entryVal_wellFormed _, ?_, ?_⟩
  · cases h : store t with
    | absent => simp [getStatus, h]
    | nullEntry => simp [getStatus, h]
    | record r => simp [getStatus, h]
  · intro hrec hs hd
    have hupd : onTabUpdated store tabId true url tabId = .nullEntry := by
      simp [onTabUpdated, hs, hrec, hd, storeSet]
    refine ⟨hupd, ?_⟩
    simp [getStatus, hupd]

/-- Witness for C10: a concrete tab navigating from https://a.com/ to
https://b.com/ gets its entry set to `null` and reads back PENDING. -/
theorem store_entries_wellFormed_witness :
    WellFormedEntry
      ((handlePageData (some "k") []
          (storeSet (fun _ => EntryVal.absent) 1 (.record ⟨"https://a.com/", "SAFE", "e", 0⟩))
          1 "https://a.com/" .bodyNotJson 1).store 1) ∧
    (getStatus
        (storeSet (fun _ => EntryVal.absent) 1 (.record ⟨"https://a.com/", "SAFE", "e", 0⟩))
        2 = .placeholder ↔
      ((storeSet (fun _ => EntryVal.absent) 1 (.record ⟨"https://a.com/", "SAFE", "e", 0⟩)) 2 =
          .absent ∨
        (storeSet (fun _ => EntryVal.absent) 1 (.record ⟨"https://a.com/", "SAFE", "e", 0⟩)) 2 =
          .nullEntry)) ∧
    onTabUpdated
        (storeSet (fun _ => EntryVal.absent) 1 (.record ⟨"https://a.com/", "SAFE", "e", 0⟩))
        1 true "https://b.com/" 1 = .nullEntry ∧
    getStatus
        (onTabUpdated
          (storeSet (fun _ => EntryVal.absent) 1 (.record ⟨"https://a.com/", "SAFE", "e", 0⟩))
          1 true "https://b.com/") 1 = .placeholder :=
  ⟨(store_entries_wellFormed (some "k") []
      (storeSet (fun _ => EntryVal.absent) 1 (.record ⟨"https://a.com/", "SAFE", "e", 0⟩))
      1 1 1 "https://a.com/" .bodyNotJson true ⟨"https://a.com/", "SAFE", "e", 0⟩).1,
   (store_entries_wellFormed (some "k") []
      (storeSet (fun _ => EntryVal.absent) 1 (.record ⟨"https://a.com/", "SAFE", "e", 0⟩))
      1 2 1 "https://a.com/" .bodyNotJson true ⟨"https://a.com/", "SAFE", "e", 0⟩).2.2.2.2.1,
   (store_entries_wellFormed (some "k") []
      (storeSet (fun _ => EntryVal.absent) 1 (.record ⟨"https://a.com/", "SAFE", "e", 0⟩))
      1 1 1 "https://b.com/" .bodyNotJson true ⟨"https://a.com/", "SAFE", "e", 0⟩).2.2.2.2.2
     (by decide) (by decide) (by decide) |>.1,
   (store_entries_wellFormed (some "k") []
      (storeSet (fun _ => EntryVal.absent) 1 (.record ⟨"https://a.com/", "SAFE", "e", 0⟩))
      1 1 1 "https://b.com/" .bodyNotJson true ⟨"https://a.com/", "SAFE", "e", 0⟩).2.2.2.2.2
     (by decide) (by decide) (by decide) |>.2⟩

end Trinetra
